import Mathlib

/-! Ads4D: scroll-driven animation and before/after slider.

A shallow embedding of `src/js/slider.js` (the comparison slider) and of
`handleScroll` in `src/js/scene.js` (the scroll-driven animation), with the
properties of the two mappings proved over it.

Numbers.  JavaScript numbers are modelled by `JSNum`: the three special values `NaN`,
`-Infinity`, `+Infinity`, and the finite values, carried as rationals.  The
special values follow IEEE-754 as JavaScript exposes it (`0/0 = NaN`,
`x/0 = ±Infinity`, `Math.min`/`Math.max` propagate `NaN`, every comparison with
`NaN` is false).  Finite arithmetic is exact: rounding and overflow of doubles
are not modelled, the literal `0.8` is `4/5`, and the two zeros are identified
(a zero divisor counts as `+0`, which is what DOM geometry produces).  The
values the scenarios below evaluate (0, 1/2, 1, 25, 75, 100, 640) are computed
without rounding in doubles as well.
-/

namespace Ads4D

/-! ## JavaScript numbers -/

/-- A JavaScript number: `NaN`, `-Infinity`, `+Infinity` or a finite value. -/
inductive JSNum where
  | nan : JSNum
  | ninf : JSNum
  | pinf : JSNum
  | fin (q : ℚ) : JSNum
  deriving DecidableEq

namespace JSNum

/-- Unary minus. -/
def neg : JSNum → JSNum
  | nan => nan
  | ninf => pinf
  | pinf => ninf
  | fin q => fin (-q)

/-- Binary `+`. -/
def add : JSNum → JSNum → JSNum
  | nan, _ => nan
  | _, nan => nan
  | pinf, ninf => nan
  | ninf, pinf => nan
  | pinf, _ => pinf
  | _, pinf => pinf
  | ninf, _ => ninf
  | _, ninf => ninf
  | fin a, fin b => fin (a + b)

/-- Binary `-`. -/
def sub (a b : JSNum) : JSNum := add a (neg b)

/-- An infinity times the finite `q`: `positive` tells the sign of the infinity,
the result has the product of the signs and is `NaN` when `q = 0`. -/
def infTimes (positive : Bool) (q : ℚ) : JSNum :=
  if q = 0 then nan
  else if (0 < q) = positive then pinf else ninf

/-- Binary `*`. -/
def mul : JSNum → JSNum → JSNum
  | nan, _ => nan
  | _, nan => nan
  | fin a, fin b => fin (a * b)
  | fin a, pinf => infTimes true a
  | fin a, ninf => infTimes false a
  | pinf, fin b => infTimes true b
  | ninf, fin b => infTimes false b
  | pinf, pinf => pinf
  | pinf, ninf => ninf
  | ninf, pinf => ninf
  | ninf, ninf => pinf

/-- Binary `/`.  A finite value over zero is `NaN` for `0/0` and otherwise the
infinity of the sign of the dividend. -/
def div : JSNum → JSNum → JSNum
  | nan, _ => nan
  | _, nan => nan
  | fin a, fin b =>
      if b = 0 then
        (if a = 0 then nan else if 0 < a then pinf else ninf)
      else fin (a / b)
  | fin _, pinf => fin 0
  | fin _, ninf => fin 0
  | pinf, fin b => if 0 ≤ b then pinf else ninf
  | ninf, fin b => if 0 ≤ b then ninf else pinf
  | pinf, pinf => nan
  | pinf, ninf => nan
  | ninf, pinf => nan
  | ninf, ninf => nan

/-- The relational operator `<`: false as soon as an operand is `NaN`. -/
def lt : JSNum → JSNum → Bool
  | nan, _ => false
  | _, nan => false
  | fin a, fin b => decide (a < b)
  | ninf, ninf => false
  | ninf, _ => true
  | fin _, pinf => true
  | _, _ => false

/-- The relational operator `<=`: false as soon as an operand is `NaN`. -/
def le : JSNum → JSNum → Bool
  | nan, _ => false
  | _, nan => false
  | fin a, fin b => decide (a ≤ b)
  | ninf, _ => true
  | _, pinf => true
  | _, _ => false

/-- The relational operator `>=`. -/
def ge (a b : JSNum) : Bool := le b a

/-- Strict equality `===` on numbers: `NaN` equals nothing. -/
def strictEq : JSNum → JSNum → Bool
  | nan, _ => false
  | _, nan => false
  | a, b => decide (a = b)

/-- `Math.min` of two arguments. -/
def min : JSNum → JSNum → JSNum
  | nan, _ => nan
  | _, nan => nan
  | a, b => if lt b a then b else a

/-- `Math.max` of two arguments. -/
def max : JSNum → JSNum → JSNum
  | nan, _ => nan
  | _, nan => nan
  | a, b => if lt a b then b else a

/-- A number that is finite and lies in the closed interval `[lo, hi]`. -/
def within (lo hi : ℚ) : JSNum → Prop
  | fin q => lo ≤ q ∧ q ≤ hi
  | _ => False

instance (lo hi : ℚ) (v : JSNum) : Decidable (within lo hi v) := by
  cases v <;> unfold within <;> infer_instance

end JSNum

open JSNum

/-! ## The comparison slider (`src/js/slider.js`) -/

/-- The part of `container.getBoundingClientRect()` that `updateSlider` reads. -/
structure Rect where
  left : JSNum
  width : JSNum

/-- One comparison container with the three elements looked up at set-up and
the closure variable `isDragging`.  An element that `querySelector` did not
find is `none`; for one that exists the field holds its presentation value:
`style.left` in percent for the handle and the line, and the right inset of
`style.clipPath`, in percent, for the after image. -/
structure Slider where
  handle : Option JSNum
  sliderLine : Option JSNum
  imageAfter : Option JSNum
  isDragging : Bool
  deriving DecidableEq

/-- How a listener ends: normally, or with an uncaught `TypeError` (a property
access on `null` or `undefined`). -/
inductive Completion where
  | normal : Completion
  | typeError : Completion
  deriving DecidableEq

/-- The local `percentage` of `updateSlider`:
`Math.max(0, Math.min(100, (offsetX / rect.width) * 100))` with
`offsetX = x - rect.left`. -/
def percentage (rect : Rect) (x : JSNum) : JSNum :=
  let offsetX := sub x rect.left
  JSNum.max (fin 0) (JSNum.min (fin 100) (mul (div offsetX rect.width) (fin 100)))

/-- The function `updateSlider(x)`: the three style writes in source order, each
failing with a `TypeError` when its element is `null`; writes made before the
failure stay. -/
def updateSlider (rect : Rect) (x : JSNum) (s : Slider) : Slider × Completion :=
  let percentage := percentage rect x
  match s.handle with
  | none => (s, Completion.typeError)
  | some _ =>
    let s1 := { s with handle := some percentage }
    match s1.sliderLine with
    | none => (s1, Completion.typeError)
    | some _ =>
      let s2 := { s1 with sliderLine := some percentage }
      match s2.imageAfter with
      | none => (s2, Completion.typeError)
      | some _ => ({ s2 with imageAfter := some (sub (fin 100) percentage) }, Completion.normal)

/-- The events the container listens to.  A touch event carries the `clientX`
of its `touches` list; a click carries whether `e.target` is the handle. -/
inductive Event where
  | mousedown (clientX : JSNum) : Event
  | mousemove (clientX : JSNum) : Event
  | mouseup : Event
  | touchstart (touches : List JSNum) : Event
  | touchmove (touches : List JSNum) : Event
  | touchend : Event
  | click (clientX : JSNum) (targetIsHandle : Bool) : Event
  deriving DecidableEq

/-- The call `updateSlider(e.touches[0].clientX)`: a `TypeError` when the list of
touches is empty. -/
def updateSliderTouch (rect : Rect) (touches : List JSNum) (s : Slider) :
    Slider × Completion :=
  match touches with
  | [] => (s, Completion.typeError)
  | x :: _ => updateSlider rect x s

/-- The listener of the container for one event; `rect` is what
`getBoundingClientRect` returns when the event is handled. -/
def dispatch (rect : Rect) (e : Event) (s : Slider) : Slider × Completion :=
  match e with
  | Event.mousedown x => updateSlider rect x { s with isDragging := true }
  | Event.mousemove x =>
      if !s.isDragging then (s, Completion.normal) else updateSlider rect x s
  | Event.mouseup => ({ s with isDragging := false }, Completion.normal)
  | Event.touchstart ts => updateSliderTouch rect ts { s with isDragging := true }
  | Event.touchmove ts =>
      if !s.isDragging then (s, Completion.normal) else updateSliderTouch rect ts s
  | Event.touchend => ({ s with isDragging := false }, Completion.normal)
  | Event.click x targetIsHandle =>
      if targetIsHandle && s.handle.isSome then (s, Completion.normal)
      else updateSlider rect x s

/-- A press-down: `mousedown` or `touchstart`. -/
def Event.isPress : Event → Bool
  | Event.mousedown _ => true
  | Event.touchstart _ => true
  | _ => false

/-- A move: `mousemove` or `touchmove`. -/
def Event.isMove : Event → Bool
  | Event.mousemove _ => true
  | Event.touchmove _ => true
  | _ => false

/-- The state after a sequence of events, each with the rectangle the container
has when it is handled.  An uncaught error ends one listener, not the page: the
next event is handled from the state the failed listener left. -/
def run (s : Slider) : List (Rect × Event) → Slider
  | [] => s
  | (rect, e) :: rest => run (dispatch rect e s).1 rest

/-! ## The animation handle of the rendering engine

`handleScroll` drives the clip through three calls into the rendering engine
(three.js, an external library that `scene.js` reaches through the global
`THREE`): `AnimationAction.reset`, `AnimationAction.play` and
`AnimationMixer.setTime`.  They are modelled after the library, for the one
action `scene.js` creates and as it configures it when the model has loaded
(`setLoop(THREE.LoopOnce)`, `clampWhenFinished = true`, `play()`): unit time
scales, no scheduled start, no fading or warping.  With `clampWhenFinished` the
engine pauses an action whose clip has run to an end; this is the state the
re-arm in `handleScroll` undoes. -/

/-- The fields of the `AnimationAction` that the scroll driver reads or that
the engine changes: the flags `paused` and `enabled`, the local `time`, the
private `_loopCount`, and `getClip().duration`. -/
structure Action where
  paused : Bool
  enabled : Bool
  time : JSNum
  loopCount : Int
  duration : JSNum
  deriving DecidableEq

/-- The `AnimationMixer`: its global `time`. -/
structure Mixer where
  time : JSNum
  deriving DecidableEq

/-- The engine's `AnimationAction.reset()`: un-pauses, enables, rewinds the clip
to time 0 and forgets previous loops. -/
def Action.reset (a : Action) : Action :=
  { a with paused := false, enabled := true, time := fin 0, loopCount := -1 }

/-- The engine's `AnimationAction.play()`: activates the action in its mixer;
the flags and the time are left as they are. -/
def Action.play (a : Action) : Action := a

/-- The engine's `AnimationAction._updateTime(deltaTime)` for `LoopOnce` with
`clampWhenFinished`: a zero step changes nothing; otherwise the time advances,
and when it runs over an end of the clip it is clamped there and the action is
paused. -/
def Action.updateTime (a : Action) (deltaTime : JSNum) : Action :=
  let time := add a.time deltaTime
  if strictEq deltaTime (fin 0) then a
  else
    let a1 := if a.loopCount = -1 then { a with loopCount := 0 } else a
    if ge time a1.duration then { a1 with paused := true, time := a1.duration }
    else if lt time (fin 0) then { a1 with paused := true, time := fin 0 }
    else { a1 with time := time }

/-- The engine's `AnimationAction._update(time, deltaTime, ...)`: nothing for a
disabled action; otherwise the step is scaled by the effective time scale (0
when paused, else 1) and applied. -/
def Action.update (a : Action) (deltaTime : JSNum) : Action :=
  if !a.enabled then a
  else
    let timeScale := if !a.paused then fin 1 else fin 0
    a.updateTime (mul deltaTime timeScale)

/-- The engine's `AnimationMixer.update(deltaTime)` with the single active
action. -/
def Mixer.update (m : Mixer) (a : Action) (deltaTime : JSNum) : Mixer × Action :=
  let deltaTime := mul deltaTime (fin 1)
  ({ m with time := add m.time deltaTime }, a.update deltaTime)

/-- The engine's `AnimationMixer.setTime(timeInSeconds)`: zeroes the time of the
mixer and of its actions, then updates by `timeInSeconds`. -/
def Mixer.setTime (m : Mixer) (a : Action) (timeInSeconds : JSNum) : Mixer × Action :=
  Mixer.update { m with time := fin 0 } { a with time := fin 0 } timeInSeconds

/-! ## The scroll-driven animation (`handleScroll` in `src/js/scene.js`) -/

/-- The part of `showcaseSection.getBoundingClientRect()` that `handleScroll`
reads. -/
structure SectionRect where
  top : JSNum
  height : JSNum

/-- What `handleScroll` sees: the closure variables `mixer` and
`animationAction` (`null` until the model has loaded with an animation), the
rectangle of the `.showcase-3d` section when the page has one, and
`window.innerHeight`. -/
structure Scene where
  mixer : Option Mixer
  animationAction : Option Action
  showcaseSection : Option SectionRect
  innerHeight : JSNum

/-- The local `scrollProgress` of `handleScroll`:
`Math.max(0, Math.min(1, -adjustedTop / (sectionHeight + scrollStart)))` with
`scrollStart = windowHeight * 0.8` and `adjustedTop = rect.top - scrollStart`. -/
def scrollProgress (rect : SectionRect) (windowHeight : JSNum) : JSNum :=
  let sectionHeight := rect.height
  let scrollStart := mul windowHeight (fin (4 / 5))
  let adjustedTop := sub rect.top scrollStart
  JSNum.max (fin 0)
    (JSNum.min (fin 1) (div (neg adjustedTop) (add sectionHeight scrollStart)))

/-- The local `targetTime` of `handleScroll`: `scrollProgress * duration`. -/
def targetTime (rect : SectionRect) (windowHeight duration : JSNum) : JSNum :=
  mul (scrollProgress rect windowHeight) duration

/-- The function `handleScroll()`: the two early returns, the re-arm of a paused
or ended action, and the seek to `targetTime`. -/
def handleScroll (sc : Scene) : Scene :=
  match sc.mixer, sc.animationAction with
  | some mixer, some animationAction =>
    match sc.showcaseSection with
    | none => sc
    | some rect =>
      let duration := animationAction.duration
      let targetTime := targetTime rect sc.innerHeight duration
      let rearmed :=
        if animationAction.paused || strictEq animationAction.time duration then
          ({ animationAction with paused := false, enabled := true }).reset.play
        else animationAction
      let after := Mixer.setTime mixer rearmed targetTime
      { sc with mixer := some after.1, animationAction := some after.2 }
  | _, _ => sc

/-! ## The mappings as the specification writes them -/

/-- The `clamp(v, lo, hi)` of the specification, read as the mathematical clamp:
`lo` below `lo`, `hi` above `hi`, and `v` itself otherwise. -/
def specClamp (v lo hi : JSNum) : JSNum :=
  if lt v lo then lo else if lt hi v then hi else v

/-- The progress as the specification writes it:
`clamp(-(top - 0.8*viewportHeight) / (height + 0.8*viewportHeight), 0, 1)`. -/
def specProgress (top height viewportHeight : JSNum) : JSNum :=
  specClamp
    (div (neg (sub top (mul (fin (4 / 5)) viewportHeight)))
      (add height (mul (fin (4 / 5)) viewportHeight)))
    (fin 0) (fin 1)

/-- The percentage as the specification writes it:
`clamp(((x - rect.left) / rect.width) * 100, 0, 100)`. -/
def specPercentage (x left width : JSNum) : JSNum :=
  specClamp (mul (div (sub x left) width) (fin 100)) (fin 0) (fin 100)

/-! ## Clamping lemmas -/

theorem clampCode_fin (lo hi q : ℚ) (h : lo ≤ hi) :
    JSNum.max (fin lo) (JSNum.min (fin hi) (fin q)) = fin (Max.max lo (Min.min hi q)) := by
  by_cases h1 : q < hi
  · have e1 : JSNum.min (fin hi) (fin q) = fin q := by simp [JSNum.min, lt, h1]
    rw [e1, min_eq_right h1.le]
    by_cases h2 : lo < q
    · simp [JSNum.max, lt, h2, max_eq_right h2.le]
    · have h3 : q ≤ lo := not_lt.mp h2
      simp [JSNum.max, lt, h2, max_eq_left h3]
  · have h1b : hi ≤ q := not_lt.mp h1
    have e1 : JSNum.min (fin hi) (fin q) = fin hi := by simp [JSNum.min, lt, h1]
    rw [e1, min_eq_left h1b]
    by_cases h2 : lo < hi
    · simp [JSNum.max, lt, h2, max_eq_right h]
    · have h3 : hi = lo := le_antisymm (not_lt.mp h2) h
      simp [JSNum.max, lt, h3]

theorem clampCode_nan (lo hi : ℚ) : JSNum.max (fin lo) (JSNum.min (fin hi) nan) = nan := by
  simp [JSNum.min, JSNum.max]

theorem clampCode_pinf (lo hi : ℚ) (h : lo ≤ hi) :
    JSNum.max (fin lo) (JSNum.min (fin hi) pinf) = fin hi := by
  have e1 : JSNum.min (fin hi) pinf = fin hi := by simp [JSNum.min, lt]
  rw [e1]
  by_cases h2 : lo < hi
  · simp [JSNum.max, lt, h2]
  · have h3 : hi = lo := le_antisymm (not_lt.mp h2) h
    simp [JSNum.max, lt, h3]

theorem clampCode_ninf (lo hi : ℚ) :
    JSNum.max (fin lo) (JSNum.min (fin hi) ninf) = fin lo := by
  simp [JSNum.min, JSNum.max, lt]

theorem clamp_fin (lo hi q : ℚ) (h : lo ≤ hi) :
    specClamp (fin q) (fin lo) (fin hi) = fin (Max.max lo (Min.min hi q)) := by
  unfold specClamp
  by_cases h1 : q < lo
  · have : Min.min hi q = q := min_eq_right (h1.le.trans h)
    simp [lt, h1, this, max_eq_left h1.le]
  · have h1b : lo ≤ q := not_lt.mp h1
    by_cases h2 : hi < q
    · simp [lt, h1, h2, min_eq_left h2.le, max_eq_right h]
    · have h2b : q ≤ hi := not_lt.mp h2
      simp [lt, h1, h2, min_eq_right h2b, max_eq_right h1b]

theorem clampCode_eq_clamp (lo hi : ℚ) (h : lo ≤ hi) (v : JSNum) :
    JSNum.max (fin lo) (JSNum.min (fin hi) v) = specClamp v (fin lo) (fin hi) := by
  cases v with
  | nan => simp [clampCode_nan, specClamp, lt]
  | ninf => simp [clampCode_ninf, specClamp, lt]
  | pinf => simp [clampCode_pinf lo hi h, specClamp, lt]
  | fin q => rw [clampCode_fin lo hi q h, clamp_fin lo hi q h]

theorem clampCode_cases (lo hi : ℚ) (h : lo ≤ hi) (v : JSNum) :
    (v = nan ∧ JSNum.max (fin lo) (JSNum.min (fin hi) v) = nan) ∨
      (v ≠ nan ∧ within lo hi (JSNum.max (fin lo) (JSNum.min (fin hi) v))) := by
  cases v with
  | nan => left; exact ⟨rfl, clampCode_nan lo hi⟩
  | ninf => right; rw [clampCode_ninf]; exact ⟨by simp, le_refl _, h⟩
  | pinf => right; rw [clampCode_pinf lo hi h]; exact ⟨by simp, h, le_refl _⟩
  | fin q =>
    right; rw [clampCode_fin lo hi q h]
    exact ⟨by simp, le_max_left _ _, max_le h (min_le_left _ _)⟩

theorem mul_swap (a b : JSNum) : mul a b = mul b a := by
  cases a <;> cases b <;> simp [mul, Rat.mul_comm]

/-! ## The slider: lemmas -/

theorem percentage_eq_spec (rect : Rect) (x : JSNum) :
    percentage rect x = specPercentage x rect.left rect.width := by
  unfold percentage specPercentage
  exact clampCode_eq_clamp 0 100 (by norm_num) _

/-- On finite geometry the percentage is `NaN` exactly for `0/0`: a container of
width 0 with the pointer on its left edge. -/
theorem percentage_nan_iff (x l w : ℚ) :
    percentage ⟨fin l, fin w⟩ (fin x) = nan ↔ (w = 0 ∧ x = l) := by
  unfold percentage
  constructor
  · intro h
    rcases clampCode_cases 0 100 (by norm_num)
        (mul (div (sub (fin x) (fin l)) (fin w)) (fin 100)) with ⟨hv, _⟩ | ⟨_, hin⟩
    · by_cases hw : w = 0
      · refine ⟨hw, ?_⟩
        by_contra hx
        have hx2 : x + -l ≠ 0 := fun h0 => hx (by linarith)
        by_cases hp : 0 < x + -l <;>
          simp [sub, add, neg, div, mul, hw, hx2, hp, infTimes] at hv
      · simp [sub, add, neg, div, mul, hw] at hv
    · simp only [] at h
      rw [h] at hin
      exact hin.elim
  · rintro ⟨hw, hx⟩
    subst hw hx
    simp [sub, add, neg, div, mul, JSNum.min, JSNum.max]

theorem percentage_example_25 : percentage ⟨fin 100, fin 200⟩ (fin 150) = fin 25 := by
  simp [percentage, sub, add, neg, div, mul, clampCode_fin]; norm_num

theorem percentage_example_100 : percentage ⟨fin 100, fin 200⟩ (fin 400) = fin 100 := by
  simp [percentage, sub, add, neg, div, mul, clampCode_fin]; norm_num

theorem updateSlider_present (rect : Rect) (x h l i : JSNum) (d : Bool) :
    updateSlider rect x ⟨some h, some l, some i, d⟩ =
      (⟨some (percentage rect x), some (percentage rect x),
        some (sub (fin 100) (percentage rect x)), d⟩, Completion.normal) := by
  simp [updateSlider]

theorem updateSlider_isDragging (rect : Rect) (x : JSNum) (s : Slider) :
    (updateSlider rect x s).1.isDragging = s.isDragging := by
  obtain ⟨hd, ln, im, dr⟩ := s
  cases hd <;> cases ln <;> cases im <;> simp [updateSlider]

theorem dispatch_isDragging_of_not_press (rect : Rect) (e : Event) (s : Slider)
    (he : e.isPress = false) (hs : s.isDragging = false) :
    (dispatch rect e s).1.isDragging = false := by
  cases e with
  | mousedown x => simp [Event.isPress] at he
  | touchstart ts => simp [Event.isPress] at he
  | mousemove x => simp [dispatch, hs]
  | touchmove ts => simp [dispatch, hs]
  | mouseup => simp [dispatch]
  | touchend => simp [dispatch]
  | click x t =>
    simp only [dispatch]
    split
    · exact hs
    · rw [updateSlider_isDragging]; exact hs

theorem run_isDragging_of_no_press (s : Slider) (es : List (Rect × Event))
    (hs : s.isDragging = false) (hes : ∀ p ∈ es, p.2.isPress = false) :
    (run s es).isDragging = false := by
  induction es generalizing s with
  | nil => exact hs
  | cons a rest ih =>
    obtain ⟨r, e⟩ := a
    simp only [run]
    apply ih
    · exact dispatch_isDragging_of_not_press r e s (hes (r, e) (List.mem_cons_self _ _)) hs
    · intro p hp
      exact hes p (List.mem_cons_of_mem _ hp)

theorem dispatch_move_idle (rect : Rect) (e : Event) (s : Slider)
    (he : e.isMove = true) (hs : s.isDragging = false) :
    dispatch rect e s = (s, Completion.normal) := by
  cases e <;> simp [Event.isMove] at he <;> simp [dispatch, hs]

/-! ## The scroll mapping: lemmas -/

theorem scrollProgress_eq_spec (top height viewportHeight : JSNum) :
    scrollProgress ⟨top, height⟩ viewportHeight = specProgress top height viewportHeight := by
  unfold scrollProgress specProgress
  simp only [mul_swap viewportHeight (fin (4 / 5))]
  exact clampCode_eq_clamp 0 1 (by norm_num) _

theorem scrollProgress_nan_or_within (rect : SectionRect) (windowHeight : JSNum) :
    scrollProgress rect windowHeight = nan ∨ within 0 1 (scrollProgress rect windowHeight) := by
  unfold scrollProgress
  rcases clampCode_cases 0 1 (by norm_num)
      (div (neg (sub rect.top (mul windowHeight (fin (4 / 5)))))
        (add rect.height (mul windowHeight (fin (4 / 5))))) with ⟨_, h⟩ | ⟨_, h⟩
  · exact Or.inl h
  · exact Or.inr h

theorem scrollProgress_fin (top height vh : ℚ) (hd : height + vh * (4 / 5) ≠ 0) :
    scrollProgress ⟨fin top, fin height⟩ (fin vh)
      = fin (Max.max 0 (Min.min 1 (-(top + -(vh * (4 / 5))) / (height + vh * (4 / 5))))) := by
  unfold scrollProgress
  simp only [mul, sub, add, neg, div, if_neg hd]
  exact clampCode_fin 0 1 _ (by norm_num)

theorem scrollProgress_zero_den (top height vh : ℚ) (hd : height + vh * (4 / 5) = 0)
    (hn : top + -(vh * (4 / 5)) ≠ 0) :
    scrollProgress ⟨fin top, fin height⟩ (fin vh)
      = if top + -(vh * (4 / 5)) < 0 then fin 1 else fin 0 := by
  unfold scrollProgress
  simp only [mul, sub, add, neg, div, if_pos hd]
  have hn2 : -(top + -(vh * (4 / 5))) ≠ 0 := fun h0 => hn (neg_eq_zero.mp h0)
  by_cases hp : top + -(vh * (4 / 5)) < 0
  · have hp2 : 0 < -(top + -(vh * (4 / 5))) := by linarith
    rw [if_neg hn2, if_pos hp2, if_pos hp]
    exact clampCode_pinf 0 1 (by norm_num)
  · have hp2 : ¬ 0 < -(top + -(vh * (4 / 5))) := by
      intro h; apply hp; linarith
    rw [if_neg hn2, if_neg hp2, if_neg hp]
    exact clampCode_ninf 0 1

theorem scrollProgress_nan (top height vh : ℚ) (hd : height + vh * (4 / 5) = 0)
    (hn : top + -(vh * (4 / 5)) = 0) :
    scrollProgress ⟨fin top, fin height⟩ (fin vh) = nan := by
  unfold scrollProgress
  simp only [mul, sub, add, neg, div, if_pos hd]
  have hn2 : -(top + -(vh * (4 / 5))) = 0 := neg_eq_zero.mpr hn
  rw [if_pos hn2]
  exact clampCode_nan 0 1

/-! ## The scroll driver: lemmas -/

theorem handleScroll_present (m : Mixer) (a : Action) (rect : SectionRect) (vh : JSNum) :
    handleScroll ⟨some m, some a, some rect, vh⟩ =
      ⟨some (Mixer.setTime m
          (if a.paused || strictEq a.time a.duration then
            ({ a with paused := false, enabled := true }).reset.play else a)
          (targetTime rect vh a.duration)).1,
        some (Mixer.setTime m
          (if a.paused || strictEq a.time a.duration then
            ({ a with paused := false, enabled := true }).reset.play else a)
          (targetTime rect vh a.duration)).2, some rect, vh⟩ := by
  simp [handleScroll]

theorem setTime_rearmed (m : Mixer) (p : JSNum) (d : ℚ)
    (hd0 : 0 ≤ d) (hp : p = nan ∨ within 0 1 p) :
    (Mixer.setTime m ⟨false, true, fin 0, -1, fin d⟩ (mul p (fin d))).2.enabled = true ∧
    (Mixer.setTime m ⟨false, true, fin 0, -1, fin d⟩ (mul p (fin d))).2.time = mul p (fin d) ∧
    ((Mixer.setTime m ⟨false, true, fin 0, -1, fin d⟩ (mul p (fin d))).2.paused = false ↔
      ¬ (p = fin 1 ∧ 0 < d)) := by
  rcases hp with hp | hp
  · subst hp
    simp [Mixer.setTime, Mixer.update, Action.update, Action.updateTime, mul, strictEq, add,
      ge, le, lt]
  · cases p with
    | nan => exact hp.elim
    | ninf => exact hp.elim
    | pinf => exact hp.elim
    | fin q =>
      obtain ⟨h0, h1⟩ := hp
      by_cases hz : q * d = 0
      · have hne : ¬ (q = 1 ∧ 0 < d) := by
          rintro ⟨rfl, hpos⟩
          rw [one_mul] at hz
          exact absurd hz (ne_of_gt hpos)
        simp [Mixer.setTime, Mixer.update, Action.update, Action.updateTime, mul, strictEq,
          hz, hne]
      · have hdpos : 0 < d := by
          rcases lt_or_eq_of_le hd0 with h | h
          · exact h
          · exact absurd (by rw [← h, mul_zero]) hz
        by_cases hq : q = 1
        · subst hq
          simp [Mixer.setTime, Mixer.update, Action.update, Action.updateTime, mul, strictEq,
            add, ge, le, hdpos, ne_of_gt hdpos]
        · have hlt : q * d < d := by
            have : q < 1 := lt_of_le_of_ne h1 hq
            nlinarith
          have hnn : ¬ q * d < 0 := not_lt.mpr (mul_nonneg h0 hd0)
          simp [Mixer.setTime, Mixer.update, Action.update, Action.updateTime, mul, strictEq,
            add, ge, le, lt, hz, hq, not_le.mpr hlt, hnn]

/-! ## The claims -/

/-- C1, the failing input: on a container of width 0 at left 0 (the rectangle of
an element that is not rendered) with the pointer at `x = 0`, the quotient is
`0/0`, `Math.min` and `Math.max` pass the `NaN` through, and the percentage
`updateSlider` computes is `NaN`, not a value in `[0, 100]`; a press there
writes `NaN` to all three presentation values. On the same container every
other pointer position is clamped: `x = 5` gives 100 and `x = -5` gives 0. -/
theorem percentage_zero_width_nan :
    percentage ⟨fin 0, fin 0⟩ (fin 0) = nan ∧
    ¬ within 0 100 (percentage ⟨fin 0, fin 0⟩ (fin 0)) ∧
    dispatch ⟨fin 0, fin 0⟩ (Event.mousedown (fin 0))
        ⟨some (fin 50), some (fin 50), some (fin 50), false⟩
      = (⟨some nan, some nan, some nan, true⟩, Completion.normal) ∧
    percentage ⟨fin 0, fin 0⟩ (fin 5) = fin 100 ∧
    percentage ⟨fin 0, fin 0⟩ (fin (-5)) = fin 0 := by
  have h : percentage ⟨fin 0, fin 0⟩ (fin 0) = nan := by
    simp [percentage, sub, add, neg, div, mul, JSNum.min, JSNum.max]
  refine ⟨h, ?_, ?_, ?_, ?_⟩
  · rw [h]
    exact fun hf => hf
  · simp [dispatch, updateSlider_present, h, sub, add, neg]
  · norm_num [percentage, sub, add, neg, div, mul, infTimes, JSNum.min, JSNum.max, lt]
  · norm_num [percentage, sub, add, neg, div, mul, infTimes, JSNum.min, JSNum.max, lt]

/-- C2: for every section rectangle and viewport height the progress
`handleScroll` computes is the specification's
`clamp(-(top - 0.8*viewportHeight) / (height + 0.8*viewportHeight), 0, 1)`;
with height 400 and viewport height 800 the scroll start is 640, `top = 640`
gives progress 0 and `top = -400` gives progress 1. -/
theorem scroll_progress_formula :
    (∀ top height viewportHeight : JSNum,
      scrollProgress ⟨top, height⟩ viewportHeight = specProgress top height viewportHeight) ∧
    mul (fin 800) (fin (4 / 5)) = fin 640 ∧
    scrollProgress ⟨fin 640, fin 400⟩ (fin 800) = fin 0 ∧
    scrollProgress ⟨fin (-400), fin 400⟩ (fin 800) = fin 1 := by
  refine ⟨scrollProgress_eq_spec, ?_, ?_, ?_⟩
  · simp [mul]; norm_num
  · rw [scrollProgress_fin _ _ _ (by norm_num)]; norm_num
  · rw [scrollProgress_fin _ _ _ (by norm_num)]; norm_num

/-- C3, the failing input: with the section rectangle at top 0 with height 0
and a viewport of height 0, `scrollStart` and `adjustedTop` are 0, the quotient
is `0/0`, and the progress and the `targetTime` of a 10 second clip are `NaN`,
not a time in `[0, 10]`; `handleScroll` seeks a playing action to `NaN`. -/
theorem targetTime_nan :
    scrollProgress ⟨fin 0, fin 0⟩ (fin 0) = nan ∧
    targetTime ⟨fin 0, fin 0⟩ (fin 0) (fin 10) = nan ∧
    ¬ within 0 10 (targetTime ⟨fin 0, fin 0⟩ (fin 0) (fin 10)) ∧
    handleScroll ⟨some ⟨fin 3⟩, some ⟨false, true, fin 3, 0, fin 10⟩,
        some ⟨fin 0, fin 0⟩, fin 0⟩
      = ⟨some ⟨nan⟩, some ⟨false, true, nan, 0, fin 10⟩, some ⟨fin 0, fin 0⟩, fin 0⟩ := by
  have hp : scrollProgress ⟨fin 0, fin 0⟩ (fin 0) = nan :=
    scrollProgress_nan 0 0 0 (by norm_num) (by norm_num)
  have h : targetTime ⟨fin 0, fin 0⟩ (fin 0) (fin 10) = nan := by
    unfold targetTime
    rw [hp]
    rfl
  refine ⟨hp, h, ?_, ?_⟩
  · rw [h]
    exact fun hf => hf
  · rw [handleScroll_present]
    simp [h, Mixer.setTime, Mixer.update, Action.update, Action.updateTime, mul, strictEq,
      add, ge, le, lt]

/-- C4, the failing input: with section height 0 and viewport height 0, two scroll
positions `top1 = 1 ≥ top2 = 0` give `progress(1) = 0` and `progress(0) = NaN`
(the quotient `0/0`), and `0 <= NaN` is false. -/
theorem scrollProgress_not_monotone :
    (0 : ℚ) ≤ 1 ∧
    scrollProgress ⟨fin 1, fin 0⟩ (fin 0) = fin 0 ∧
    scrollProgress ⟨fin 0, fin 0⟩ (fin 0) = nan ∧
    le (scrollProgress ⟨fin 1, fin 0⟩ (fin 0)) (scrollProgress ⟨fin 0, fin 0⟩ (fin 0))
      = false := by
  have h1 : scrollProgress ⟨fin 1, fin 0⟩ (fin 0) = fin 0 := by
    rw [scrollProgress_zero_den 1 0 0 (by norm_num) (by norm_num)]; norm_num
  have h0 : scrollProgress ⟨fin 0, fin 0⟩ (fin 0) = nan :=
    scrollProgress_nan 0 0 0 (by norm_num) (by norm_num)
  refine ⟨by norm_num, h1, h0, ?_⟩
  rw [h1, h0]
  rfl

/-- C5, as amended: for every animation state in which the action is paused or
its time equals the clip duration (a finite duration `≥ 0`), a scroll update
with the tracked section present that computes progress `p` leaves the action
with `enabled = true` and its time set to `p * duration`, and with
`paused = false` except when `p = 1` on a clip of positive duration: there the
seek runs the clip to its end and the engine pauses the action again. -/
theorem rearm_then_seek (m : Mixer) (a : Action) (rect : SectionRect) (vh : JSNum) (d : ℚ)
    (hdur : a.duration = fin d) (hd0 : 0 ≤ d)
    (hre : a.paused = true ∨ strictEq a.time a.duration = true) :
    ∃ m' a', handleScroll ⟨some m, some a, some rect, vh⟩ = ⟨some m', some a', some rect, vh⟩ ∧
      a'.enabled = true ∧
      a'.time = mul (scrollProgress rect vh) (fin d) ∧
      (a'.paused = false ↔ ¬ (scrollProgress rect vh = fin 1 ∧ 0 < d)) := by
  obtain ⟨pa, en, ti, lc, du⟩ := a
  simp only [] at hdur hre
  subst hdur
  have hc : (pa || strictEq ti (fin d)) = true := by
    rcases hre with h | h <;> simp [h]
  refine ⟨_, _, handleScroll_present m _ rect vh, ?_⟩
  simp only [hc, if_true, Action.reset, Action.play, targetTime]
  exact setTime_rearmed m (scrollProgress rect vh) d hd0
    (scrollProgress_nan_or_within rect vh)

/-- C5, witness: the re-arm scenario of the specification. The action sits
paused at `time = duration = 10`; the section (top 120, height 400, viewport
height 800) gives progress 0.5; the update leaves `paused = false`,
`enabled = true` and `time = 5`. -/
theorem rearm_then_seek_witness :
    ((fin 10 : JSNum) = fin 10 ∧ (0 : ℚ) ≤ 10 ∧
      ((true = true) ∨ strictEq (fin 10) (fin 10) = true)) ∧
    scrollProgress ⟨fin 120, fin 400⟩ (fin 800) = fin (1 / 2) ∧
    (handleScroll ⟨some ⟨fin 10⟩, some ⟨true, true, fin 10, 0, fin 10⟩,
        some ⟨fin 120, fin 400⟩, fin 800⟩).animationAction
      = some ⟨false, true, fin 5, 0, fin 10⟩ ∧
    ∃ m' a', handleScroll ⟨some ⟨fin 10⟩, some ⟨true, true, fin 10, 0, fin 10⟩,
          some ⟨fin 120, fin 400⟩, fin 800⟩
        = ⟨some m', some a', some ⟨fin 120, fin 400⟩, fin 800⟩ ∧
      a'.enabled = true ∧
      a'.time = mul (scrollProgress ⟨fin 120, fin 400⟩ (fin 800)) (fin 10) ∧
      (a'.paused = false ↔
        ¬ (scrollProgress ⟨fin 120, fin 400⟩ (fin 800) = fin 1 ∧ (0 : ℚ) < 10)) := by
  have hp : scrollProgress ⟨fin 120, fin 400⟩ (fin 800) = fin (1 / 2) := by
    rw [scrollProgress_fin _ _ _ (by norm_num)]; norm_num
  refine ⟨⟨rfl, by norm_num, Or.inl rfl⟩, hp, ?_,
    rearm_then_seek ⟨fin 10⟩ ⟨true, true, fin 10, 0, fin 10⟩ ⟨fin 120, fin 400⟩ (fin 800) 10
      rfl (by norm_num) (Or.inl rfl)⟩
  rw [handleScroll_present]
  simp [targetTime, hp, Mixer.setTime, Mixer.update, Action.update, Action.updateTime,
    Action.reset, Action.play, mul, strictEq, add, ge, le, lt]
  norm_num

/-- C5, counterexample: the action sits paused at `time = duration = 10` and the
section is scrolled fully past (top -400, height 400, viewport height 800), so
the progress is 1. The update re-arms the action and seeks to 10, the end of
the clip, where the engine pauses it: the action is left with `paused = true`,
not `paused = false`. -/
theorem rearm_at_end_pauses_again :
    scrollProgress ⟨fin (-400), fin 400⟩ (fin 800) = fin 1 ∧
    handleScroll ⟨some ⟨fin 10⟩, some ⟨true, true, fin 10, 0, fin 10⟩,
        some ⟨fin (-400), fin 400⟩, fin 800⟩
      = ⟨some ⟨fin 10⟩, some ⟨true, true, fin 10, 0, fin 10⟩,
        some ⟨fin (-400), fin 400⟩, fin 800⟩ := by
  have hp : scrollProgress ⟨fin (-400), fin 400⟩ (fin 800) = fin 1 := by
    rw [scrollProgress_fin _ _ _ (by norm_num)]; norm_num
  refine ⟨hp, ?_⟩
  rw [handleScroll_present]
  simp [targetTime, hp, Mixer.setTime, Mixer.update, Action.update, Action.updateTime,
    Action.reset, Action.play, mul, strictEq, add, ge, le]

/-- C6: a press-down (mouse-down or touch-start) at `x` takes the container from
Idle (`isDragging = false`) to Dragging and performs one position update with
percentage `clamp(((x - rect.left) / rect.width) * 100, 0, 100)`; a move while
Dragging applies the same formula. With rect (left 100, width 200) a press at
150 gives 25 and a move to 400 gives 100. -/
theorem press_starts_drag_and_updates (rect : Rect) (x h l i : JSNum) (rest : List JSNum) :
    let p := specPercentage x rect.left rect.width
    let dragging : Slider := ⟨some p, some p, some (sub (fin 100) p), true⟩
    dispatch rect (Event.mousedown x) ⟨some h, some l, some i, false⟩
        = (dragging, Completion.normal) ∧
    dispatch rect (Event.touchstart (x :: rest)) ⟨some h, some l, some i, false⟩
        = (dragging, Completion.normal) ∧
    dispatch rect (Event.mousemove x) ⟨some h, some l, some i, true⟩
        = (dragging, Completion.normal) ∧
    dispatch rect (Event.touchmove (x :: rest)) ⟨some h, some l, some i, true⟩
        = (dragging, Completion.normal) ∧
    run ⟨some h, some l, some i, false⟩
        [(⟨fin 100, fin 200⟩, Event.mousedown (fin 150))]
        = ⟨some (fin 25), some (fin 25), some (fin 75), true⟩ ∧
    run ⟨some h, some l, some i, false⟩
        [(⟨fin 100, fin 200⟩, Event.mousedown (fin 150)),
         (⟨fin 100, fin 200⟩, Event.mousemove (fin 400))]
        = ⟨some (fin 100), some (fin 100), some (fin 0), true⟩ := by
  intro p dragging
  have hp : percentage rect x = p := percentage_eq_spec rect x
  refine ⟨?_, ?_, ?_, ?_, ?_, ?_⟩
  · simp only [dispatch, updateSlider_present, hp, dragging]
  · simp only [dispatch, updateSliderTouch, updateSlider_present, hp, dragging]
  · simp [dispatch, updateSlider_present, hp, dragging]
  · simp [dispatch, updateSliderTouch, updateSlider_present, hp, dragging]
  · simp only [run, dispatch, updateSlider_present, percentage_example_25]
    simp [sub, add, neg]; norm_num
  · simp only [run, dispatch, updateSlider_present, percentage_example_25]
    simp [updateSlider_present, percentage_example_100, sub, add, neg]

/-- C7: a release (mouse-up or touch-end), which carries no pointer position,
puts the container in Idle whatever its state was, its presentation values
untouched; and after any events that contain no press-down on the container,
a move event leaves the whole state of the slider, presentation values
included, as it was. -/
theorem release_ends_drag (s : Slider) (rect : Rect) (release : Event)
    (hrel : release = Event.mouseup ∨ release = Event.touchend)
    (between : List (Rect × Event)) (hnp : ∀ p ∈ between, p.2.isPress = false)
    (r : Rect) (move : Event) (hmove : move.isMove = true) :
    dispatch rect release s = ({ s with isDragging := false }, Completion.normal) ∧
      dispatch r move (run (dispatch rect release s).1 between)
        = (run (dispatch rect release s).1 between, Completion.normal) := by
  have h1 : dispatch rect release s = ({ s with isDragging := false }, Completion.normal) := by
    rcases hrel with h | h <;> subst h <;> rfl
  refine ⟨h1, ?_⟩
  apply dispatch_move_idle r move _ hmove
  apply run_isDragging_of_no_press _ _ _ hnp
  rw [h1]

/-- C7, witness: a drag that has run the slider to 100 is released with the
mouse; a move at 500, a touch-end and a click at 150 follow; the next move, at
150, changes nothing. -/
theorem release_ends_drag_witness :
    ((Event.mouseup = Event.mouseup ∨ Event.mouseup = Event.touchend) ∧
      (∀ p ∈ [((⟨fin 100, fin 200⟩ : Rect), Event.mousemove (fin 500)),
          (⟨fin 100, fin 200⟩, Event.touchend),
          (⟨fin 100, fin 200⟩, Event.click (fin 150) false)], p.2.isPress = false) ∧
      (Event.mousemove (fin 150)).isMove = true) ∧
    (dispatch ⟨fin 100, fin 200⟩ Event.mouseup
        ⟨some (fin 100), some (fin 100), some (fin 0), true⟩
      = ({ (⟨some (fin 100), some (fin 100), some (fin 0), true⟩ : Slider) with
            isDragging := false }, Completion.normal) ∧
    dispatch ⟨fin 100, fin 200⟩ (Event.mousemove (fin 150))
        (run (dispatch ⟨fin 100, fin 200⟩ Event.mouseup
            ⟨some (fin 100), some (fin 100), some (fin 0), true⟩).1
          [(⟨fin 100, fin 200⟩, Event.mousemove (fin 500)),
           (⟨fin 100, fin 200⟩, Event.touchend),
           (⟨fin 100, fin 200⟩, Event.click (fin 150) false)])
      = (run (dispatch ⟨fin 100, fin 200⟩ Event.mouseup
            ⟨some (fin 100), some (fin 100), some (fin 0), true⟩).1
          [(⟨fin 100, fin 200⟩, Event.mousemove (fin 500)),
           (⟨fin 100, fin 200⟩, Event.touchend),
           (⟨fin 100, fin 200⟩, Event.click (fin 150) false)], Completion.normal)) :=
  ⟨⟨Or.inl rfl, by simp [Event.isPress], rfl⟩,
    release_ends_drag ⟨some (fin 100), some (fin 100), some (fin 0), true⟩
      ⟨fin 100, fin 200⟩ Event.mouseup (Or.inl rfl)
      [(⟨fin 100, fin 200⟩, Event.mousemove (fin 500)), (⟨fin 100, fin 200⟩, Event.touchend),
        (⟨fin 100, fin 200⟩, Event.click (fin 150) false)]
      (by simp [Event.isPress]) ⟨fin 100, fin 200⟩ (Event.mousemove (fin 150)) rfl⟩

/-- C8: when the mixer, the action or the tracked section is absent,
`handleScroll` returns at one of its two guards and leaves everything, the
animation state (paused, enabled, time) included, as it was. -/
theorem handleScroll_noop (sc : Scene)
    (h : sc.mixer = none ∨ sc.animationAction = none ∨ sc.showcaseSection = none) :
    handleScroll sc = sc := by
  obtain ⟨m, a, r, vh⟩ := sc
  simp only [] at h
  cases m <;> cases a <;> cases r <;> simp [handleScroll] at h ⊢

/-- C8, witness: a loaded animation, paused at the end of its clip, on a page
without the tracked section. -/
theorem handleScroll_noop_witness :
    ((some (⟨fin 10⟩ : Mixer) = none ∨
        some (⟨true, true, fin 10, 0, fin 10⟩ : Action) = none ∨
        (none : Option SectionRect) = none) ∧
      handleScroll ⟨some ⟨fin 10⟩, some ⟨true, true, fin 10, 0, fin 10⟩, none, fin 800⟩
        = ⟨some ⟨fin 10⟩, some ⟨true, true, fin 10, 0, fin 10⟩, none, fin 800⟩) :=
  ⟨Or.inr (Or.inr rfl),
    handleScroll_noop ⟨some ⟨fin 10⟩, some ⟨true, true, fin 10, 0, fin 10⟩, none, fin 800⟩
      (Or.inr (Or.inr rfl))⟩

/-- C9, as amended: when a container has no slider handle element, no press,
move or click changes a presentation value; a release and a move outside a
drag complete normally, while every press, every click and every move during
a drag ends in a `TypeError` at the first style write of `updateSlider`. -/
theorem missing_handle_changes_nothing (rect : Rect) (e : Event) (s : Slider)
    (h : s.handle = none) :
    (dispatch rect e s).1.handle = none ∧
      (dispatch rect e s).1.sliderLine = s.sliderLine ∧
      (dispatch rect e s).1.imageAfter = s.imageAfter ∧
      ((dispatch rect e s).2 = Completion.normal ↔
        (e = Event.mouseup ∨ e = Event.touchend ∨
          (e.isMove = true ∧ s.isDragging = false))) := by
  obtain ⟨hd, ln, im, dr⟩ := s
  simp only [] at h
  subst h
  cases e with
  | mousedown x => simp [dispatch, updateSlider, Event.isMove]
  | mousemove x => cases dr <;> simp [dispatch, updateSlider, Event.isMove]
  | mouseup => simp [dispatch]
  | touchstart ts => cases ts <;> simp [dispatch, updateSliderTouch, updateSlider, Event.isMove]
  | touchmove ts =>
    cases dr <;> cases ts <;> simp [dispatch, updateSliderTouch, updateSlider, Event.isMove]
  | touchend => simp [dispatch]
  | click x t => simp [dispatch, updateSlider, Event.isMove]

/-- C9, witness: a move outside a drag on a container without a handle. -/
theorem missing_handle_changes_nothing_witness :
    (none : Option JSNum) = none ∧
    (dispatch ⟨fin 100, fin 200⟩ (Event.mousemove (fin 150))
        ⟨none, some (fin 50), some (fin 50), false⟩).1.handle = none ∧
      (dispatch ⟨fin 100, fin 200⟩ (Event.mousemove (fin 150))
        ⟨none, some (fin 50), some (fin 50), false⟩).1.sliderLine = some (fin 50) ∧
      (dispatch ⟨fin 100, fin 200⟩ (Event.mousemove (fin 150))
        ⟨none, some (fin 50), some (fin 50), false⟩).1.imageAfter = some (fin 50) ∧
      ((dispatch ⟨fin 100, fin 200⟩ (Event.mousemove (fin 150))
          ⟨none, some (fin 50), some (fin 50), false⟩).2 = Completion.normal ↔
        (Event.mousemove (fin 150) = Event.mouseup ∨
          Event.mousemove (fin 150) = Event.touchend ∨
          ((Event.mousemove (fin 150)).isMove = true ∧ false = false))) :=
  ⟨rfl, missing_handle_changes_nothing ⟨fin 100, fin 200⟩ (Event.mousemove (fin 150))
    ⟨none, some (fin 50), some (fin 50), false⟩ rfl⟩

/-- C9, counterexample: on a container whose handle is missing, a mouse-down at
150 and a click at 150 both end in a `TypeError` (the write to
`handle.style.left` on `null`) instead of completing; the press has already set
`isDragging`. -/
theorem missing_handle_press_fails :
    dispatch ⟨fin 100, fin 200⟩ (Event.mousedown (fin 150))
        ⟨none, some (fin 50), some (fin 50), false⟩
      = (⟨none, some (fin 50), some (fin 50), true⟩, Completion.typeError) ∧
    dispatch ⟨fin 100, fin 200⟩ (Event.click (fin 150) false)
        ⟨none, some (fin 50), some (fin 50), false⟩
      = (⟨none, some (fin 50), some (fin 50), false⟩, Completion.typeError) := by
  constructor <;> simp [dispatch, updateSlider]

/-- C10, as amended: a position update writes in source order and stops, with a
`TypeError`, at the first element that is missing. On a container that has its
three elements it sets the handle offset and the divider-line offset to the
same `percentage` and sets the clip of the after image to the right inset
`100 - percentage` computed from it; a click off the handle is such an update
and a click on the handle writes nothing. -/
theorem update_writes_one_percentage (rect : Rect) (x : JSNum) :
    (∀ s : Slider, updateSlider rect x s =
      (⟨s.handle.map (fun _ => percentage rect x),
        if s.handle.isSome then s.sliderLine.map (fun _ => percentage rect x)
        else s.sliderLine,
        if s.handle.isSome && s.sliderLine.isSome then
          s.imageAfter.map (fun _ => sub (fin 100) (percentage rect x))
        else s.imageAfter,
        s.isDragging⟩,
       if s.handle.isSome && s.sliderLine.isSome && s.imageAfter.isSome then
         Completion.normal
       else Completion.typeError)) ∧
    (∀ (h l i : JSNum) (d : Bool),
      updateSlider rect x ⟨some h, some l, some i, d⟩ =
        (⟨some (percentage rect x), some (percentage rect x),
          some (sub (fin 100) (percentage rect x)), d⟩, Completion.normal) ∧
      dispatch rect (Event.click x false) ⟨some h, some l, some i, d⟩ =
        (⟨some (percentage rect x), some (percentage rect x),
          some (sub (fin 100) (percentage rect x)), d⟩, Completion.normal) ∧
      dispatch rect (Event.click x true) ⟨some h, some l, some i, d⟩ =
        (⟨some h, some l, some i, d⟩, Completion.normal)) := by
  constructor
  · intro s
    obtain ⟨hd, ln, im, dr⟩ := s
    cases hd <;> cases ln <;> cases im <;> simp [updateSlider]
  · intro h l i d
    refine ⟨updateSlider_present rect x h l i d, ?_, ?_⟩
    · simp [dispatch, updateSlider_present]
    · simp [dispatch]

/-- C10, counterexample: on the rectangle (left 100, width 200) an update at
`x = 150` has percentage 25 and sets the handle and the line to 25 but the clip
to 75, which is not the percentage; and on a container whose divider line is
missing, a click at 150 is accepted, sets the handle to 25 and fails before the
clip is written, which stays at 50. -/
theorem update_clip_is_complement :
    percentage ⟨fin 100, fin 200⟩ (fin 150) = fin 25 ∧
    updateSlider ⟨fin 100, fin 200⟩ (fin 150)
        ⟨some (fin 50), some (fin 50), some (fin 50), false⟩
      = (⟨some (fin 25), some (fin 25), some (fin 75), false⟩, Completion.normal) ∧
    (fin 75 : JSNum) ≠ fin 25 ∧
    dispatch ⟨fin 100, fin 200⟩ (Event.click (fin 150) false)
        ⟨some (fin 50), none, some (fin 50), false⟩
      = (⟨some (fin 25), none, some (fin 50), false⟩, Completion.typeError) := by
  refine ⟨percentage_example_25, ?_, ?_, ?_⟩
  · rw [updateSlider_present, percentage_example_25]
    simp [sub, add, neg]; norm_num
  · intro hc
    have h2 := JSNum.fin.inj hc
    norm_num at h2
  · simp [dispatch, updateSlider, percentage_example_25]

end Ads4D
